import Mathlib

/-!
Shallow embedding of the booking/availability/pricing core of the
kitabooking (Orange Sport Center) repository.

The embedded code lives in:
* `supabase/migrations/003_database_functions.sql` — the PL/pgSQL business
  functions `generate_reservation_code`, `calculate_venue_price`,
  `check_venue_availability`, `create_reservation`, `cancel_reservation`;
* `supabase/migrations/001_initial_schema.sql` — table shapes, column
  defaults (`reservations.status DEFAULT 'pending'`) and CHECK constraints;
* `src/lib/pricing.ts` — the client-side `calculatePrice`;
* `src/lib/validations/booking.ts` — the zod `bookingSchema`;
* `src/components/features/booking/booking-form.tsx` — `calculatePrice`,
  `getEndTimeOptions` and the `onSubmit` duration derivation.

Modelling conventions:
* SQL `TIME` values are minutes since midnight (`Nat`).
* SQL `DATE` values are days since 2000-01-01 (`Nat`); 2000-01-01 was a
  Saturday, so PostgreSQL's `EXTRACT(DOW ...)` (Sunday = 0) is `(d + 6) % 7`.
* SQL `DECIMAL` values are exact rationals (`ℚ`); nullable columns are
  `Option`.
* Tables are Lean lists; a `SELECT ... LIMIT 1` / `SELECT INTO` takes the
  first matching row (`List.find?`).
* `RAISE EXCEPTION` aborts the whole statement (PL/pgSQL functions run
  inside the calling transaction), so every failing path returns the
  database state unchanged, paired with an error value that stands for the
  distinct exception message.
* The `RANDOM()` draws of `generate_reservation_code` are modelled by an
  explicit finite stream of drawn values; `NOW()`'s `YYYYMMDD` stamp and
  `Date.now()` are explicit parameters.
-/

/-! Client-side code. Times of day are again minutes since midnight; the
JavaScript `new Date('2000-01-01T' + t)` arithmetic on two same-day times
reduces to their difference in minutes. -/

/-- The `reservation_status` enum from `001_initial_schema.sql`. -/
inductive ReservationStatus
  | pending
  | confirmed
  | cancelled
  | completed
deriving DecidableEq, Repr

/-- The `user_role` enum from `001_initial_schema.sql`. -/
inductive UserRole
  | customer
  | member
  | staff
  | admin
  | superadmin
deriving DecidableEq, Repr

/-- A row of the `venues` table (columns used by the embedded functions).
`base_price` is NOT NULL, `weekend_price` is nullable. -/
structure Venue where
  id : Nat
  basePrice : ℚ
  weekendPrice : Option ℚ
  isActive : Bool
deriving DecidableEq, Repr

/-- A row of the `venue_time_slots` table. `price_multiplier` is a nullable
column with default 1.00. -/
structure VenueTimeSlot where
  id : Nat
  venueId : Nat
  startTime : Nat
  endTime : Nat
  isAvailable : Bool
  priceMultiplier : Option ℚ
deriving DecidableEq, Repr

/-- A row of the `reservations` table (columns used by the embedded
functions; `payment_status` and the timestamps are never read by them). -/
structure Reservation where
  id : Nat
  reservationCode : String
  userId : Nat
  venueId : Nat
  venueTimeSlotId : Nat
  reservationDate : Nat
  startTime : Nat
  endTime : Nat
  durationHours : ℚ
  basePrice : ℚ
  discountPercentage : ℚ
  totalPrice : ℚ
  status : ReservationStatus
  notes : Option String
deriving DecidableEq, Repr

/-- A row of the `profiles` table (columns used by `cancel_reservation`). -/
structure Profile where
  id : Nat
  role : UserRole
deriving DecidableEq, Repr

/-- The database state seen by the PL/pgSQL functions. -/
structure DB where
  venues : List Venue
  timeSlots : List VenueTimeSlot
  reservations : List Reservation
  profiles : List Profile
deriving DecidableEq, Repr

/-- PostgreSQL `EXTRACT(DOW FROM d)` for `d` counted in days since
2000-01-01 (a Saturday): Sunday = 0, Saturday = 6. -/
def dow (d : Nat) : Nat := (d + 6) % 7

/-- PostgreSQL numeric `ROUND(x, 2)`: round to 2 decimal places, ties away
from zero. -/
def pgRound2 (x : ℚ) : ℚ :=
  if 0 ≤ x then (((x * 100 + 1/2).floor : ℤ) : ℚ) / 100
  else -((((-x) * 100 + 1/2).floor : ℤ) : ℚ) / 100

/-- JavaScript `Math.round`: floor of `x + 1/2`. -/
def jsRound (x : ℚ) : ℤ := (x + 1/2).floor

/-- The distinct failure outcomes of the PL/pgSQL functions: each
`RAISE EXCEPTION` message, plus the constraint violations the `INSERT`
in `create_reservation` can hit, keeps its own constructor. -/
inductive DBError
  /-- `'Venue not found or inactive'` -/
  | venueNotFoundOrInactive
  /-- `'Time slot not available'` -/
  | timeSlotNotAvailable
  /-- `'Time slot is already booked'` -/
  | timeSlotAlreadyBooked
  /-- `'Reservation not found'` -/
  | reservationNotFound
  /-- `'Unauthorized to cancel this reservation'` -/
  | unauthorizedToCancel
  /-- NOT NULL violation on `reservations.base_price` / `total_price`
  when `calculate_venue_price` returned NULL. -/
  | notNullViolation
  /-- `valid_time_range` / `valid_discount` CHECK constraint violation. -/
  | checkViolation
  /-- Artifact of modelling `RANDOM()` by a finite stream: the SQL
  `WHILE` loop would keep drawing, so this marks an exhausted stream,
  not a behaviour of the source. -/
  | randomStreamExhausted
deriving DecidableEq, Repr

/-- Embeds `check_venue_availability` from `003_database_functions.sql`:
counts reservations for the venue and date with status `confirmed` or
`pending` whose interval satisfies
`r.start_time < p_end_time AND r.end_time > p_start_time`
(skipping `p_exclude_reservation_id` when given), and returns
`conflict_count = 0`. -/
def check_venue_availability (reservations : List Reservation)
    (p_venue_id p_date p_start_time p_end_time : Nat)
    (p_exclude_reservation_id : Option Nat) : Bool :=
  let conflict_count := reservations.countP (fun r =>
    decide (r.venueId = p_venue_id) &&
    decide (r.reservationDate = p_date) &&
    decide (r.status = .confirmed ∨ r.status = .pending) &&
    (decide (r.startTime < p_end_time) && decide (r.endTime > p_start_time)) &&
    (match p_exclude_reservation_id with
     | none => true
     | some e => decide (r.id ≠ e)))
  conflict_count = 0

/-- PostgreSQL `LPAD(n::TEXT, 4, '0')`: left-pad the decimal representation to four
characters (PostgreSQL `LPAD` truncates on the right when longer). -/
def lpad4 (n : Nat) : String :=
  let s := toString n
  if s.length ≥ 4 then s.take 4
  else String.mk (List.replicate (4 - s.length) '0') ++ s

/-- Embeds `generate_reservation_code` from `003_database_functions.sql`:
repeatedly draw `FLOOR(RANDOM() * 10000)`, build
`'OSC' || TO_CHAR(NOW(), 'YYYYMMDD') || LPAD(draw, 4, '0')`, and return the
first candidate that no existing reservation code equals. The draws are
the explicit stream `rands`; `none` means the stream ran out (the SQL loop
would keep drawing). -/
def generate_reservation_code (existingCodes : List String) (dateStamp : String) :
    List Nat → Option String
  | [] => none
  | r :: rest =>
    let code := "OSC" ++ dateStamp ++ lpad4 r
    if existingCodes.contains code then
      generate_reservation_code existingCodes dateStamp rest
    else
      some code

/-- Iterated reservation-code generation: each generated code joins the
set of existing codes before the next call, exactly as `create_reservation`
inserts every code it generates. Each call has its own date stamp and
random stream. -/
def generate_reservation_codes (existingCodes : List String) :
    List (String × List Nat) → Option (List String)
  | [] => some []
  | (stamp, rands) :: rest =>
    match generate_reservation_code existingCodes stamp rands with
    | none => none
    | some c =>
      (generate_reservation_codes (c :: existingCodes) rest).map (fun cs => c :: cs)

/-- Embeds `calculate_venue_price` from `003_database_functions.sql`.
`SELECT base_price, weekend_price INTO ... WHERE id AND is_active` takes
the first matching venue row; no row leaves the variables NULL and raises
`'Venue not found or inactive'`. The multiplier lookup
`SELECT COALESCE(vts.price_multiplier, 1.0) INTO time_multiplier ... LIMIT 1`
takes the first available slot row containing `p_start_time`; when zero
rows match, PL/pgSQL's `SELECT INTO` assigns NULL to `time_multiplier`
(overwriting its `1.0` initializer), and NULL then propagates through the
multiplication and `ROUND`, so the function returns NULL (`.ok none`). -/
def calculate_venue_price (db : DB) (p_venue_id p_date p_start_time : Nat)
    (p_duration_hours : ℚ) : Except DBError (Option ℚ) :=
  match db.venues.find? (fun v => decide (v.id = p_venue_id) && v.isActive) with
  | none => .error .venueNotFoundOrInactive
  | some v =>
    let is_weekend : Bool := decide (dow p_date = 0) || decide (dow p_date = 6)
    let time_multiplier : Option ℚ :=
      (db.timeSlots.find? (fun vts =>
        decide (vts.venueId = p_venue_id) &&
        decide (vts.startTime ≤ p_start_time) &&
        decide (vts.endTime > p_start_time) &&
        vts.isAvailable)).map (fun vts => vts.priceMultiplier.getD 1)
    match time_multiplier with
    | none => .ok none
    | some m =>
      let final_price : ℚ :=
        if is_weekend && v.weekendPrice.isSome then
          v.weekendPrice.getD 0 * m * p_duration_hours
        else
          v.basePrice * m * p_duration_hours
      .ok (some (pgRound2 final_price))

/-- The row the `INSERT` of `create_reservation` produces: the parameters
of the call, the computed `base_price` and `total_price`
(`base_price * (1 - p_discount_percentage / 100)`), the generated code and
the `status` column default `'pending'` from `001_initial_schema.sql`. -/
def create_reservation_row (newId : Nat)
    (p_user_id p_venue_id p_venue_time_slot_id : Nat)
    (p_reservation_date p_start_time p_end_time : Nat)
    (p_duration_hours p_discount_percentage : ℚ) (p_notes : Option String)
    (base_price : ℚ) (reservation_code : String) : Reservation :=
  { id := newId
    reservationCode := reservation_code
    userId := p_user_id
    venueId := p_venue_id
    venueTimeSlotId := p_venue_time_slot_id
    reservationDate := p_reservation_date
    startTime := p_start_time
    endTime := p_end_time
    durationHours := p_duration_hours
    basePrice := base_price
    discountPercentage := p_discount_percentage
    totalPrice := base_price * (1 - p_discount_percentage / 100)
    status := .pending
    notes := p_notes }

/-- Embeds `create_reservation` from `003_database_functions.sql`, as a state
transition on `DB`. Checks run in the source's order: active venue, then
available slot belonging to the venue, then `check_venue_availability`,
then pricing, code generation and the `INSERT`. A `RAISE EXCEPTION` (or a
constraint violation at the `INSERT`) rolls the call back, so every error
outcome is paired with the unchanged database. On success the new row is
prepended; its `status` is the column default `'pending'` from
`001_initial_schema.sql`, and the `valid_time_range` / `valid_discount`
CHECK constraints of that schema guard the insert. `newId` stands for the
generated `uuid` primary key. -/
def create_reservation (db : DB) (dateStamp : String) (rands : List Nat) (newId : Nat)
    (p_user_id p_venue_id p_venue_time_slot_id : Nat)
    (p_reservation_date p_start_time p_end_time : Nat)
    (p_duration_hours p_discount_percentage : ℚ) (p_notes : Option String) :
    Except DBError Nat × DB :=
  if ¬ db.venues.any (fun v => decide (v.id = p_venue_id) && v.isActive) then
    (.error .venueNotFoundOrInactive, db)
  else if ¬ db.timeSlots.any (fun vts =>
      decide (vts.id = p_venue_time_slot_id) &&
      decide (vts.venueId = p_venue_id) &&
      vts.isAvailable) then
    (.error .timeSlotNotAvailable, db)
  else if ¬ check_venue_availability db.reservations p_venue_id p_reservation_date
      p_start_time p_end_time none then
    (.error .timeSlotAlreadyBooked, db)
  else
    match calculate_venue_price db p_venue_id p_reservation_date p_start_time
        p_duration_hours with
    | .error e => (.error e, db)
    | .ok base_price? =>
      match generate_reservation_code (db.reservations.map (fun r => r.reservationCode))
          dateStamp rands with
      | none => (.error .randomStreamExhausted, db)
      | some reservation_code =>
        match base_price? with
        | none => (.error .notNullViolation, db)
        | some base_price =>
          if ¬ (p_start_time < p_end_time ∧
                0 ≤ p_discount_percentage ∧ p_discount_percentage ≤ 100) then
            (.error .checkViolation, db)
          else
            let newRow : Reservation :=
              create_reservation_row newId p_user_id p_venue_id p_venue_time_slot_id
                p_reservation_date p_start_time p_end_time p_duration_hours
                p_discount_percentage p_notes base_price reservation_code
            (.ok newId, { db with reservations := newRow :: db.reservations })

/-- Embeds `cancel_reservation` from `003_database_functions.sql`:
`reservation_exists` and `user_owns_reservation` come from the two
`EXISTS` subqueries (the second joins `profiles` on the acting user and
accepts the owner or a `staff`/`admin`/`superadmin` role); missing row or
failed authorization raises; otherwise the `UPDATE ... WHERE id = ... AND
status IN ('pending','confirmed')` runs and the function returns `FOUND`
(whether any row was updated). -/
def cancel_reservation (db : DB) (p_reservation_id p_user_id : Nat) :
    Except DBError Bool × DB :=
  let reservation_exists := db.reservations.any (fun r => decide (r.id = p_reservation_id))
  let user_owns_reservation := db.reservations.any (fun r =>
    db.profiles.any (fun p =>
      decide (p.id = p_user_id) &&
      decide (r.id = p_reservation_id) &&
      (decide (r.userId = p_user_id) ||
       decide (p.role = .staff ∨ p.role = .admin ∨ p.role = .superadmin))))
  if ¬ reservation_exists then
    (.error .reservationNotFound, db)
  else if ¬ user_owns_reservation then
    (.error .unauthorizedToCancel, db)
  else
    let found := db.reservations.any (fun r =>
      decide (r.id = p_reservation_id) &&
      decide (r.status = .pending ∨ r.status = .confirmed))
    let reservations' := db.reservations.map (fun r =>
      if r.id = p_reservation_id ∧ (r.status = .pending ∨ r.status = .confirmed) then
        { r with status := .cancelled }
      else r)
    (.ok found, { db with reservations := reservations' })

/-- A `venue_time_slots` row as typed on the client
(`src/types/database.ts`): per-day-class prices `price_weekday` /
`price_weekend` and an `is_active` flag. -/
structure ClientTimeSlot where
  id : Nat
  venueId : Nat
  startTime : Nat
  endTime : Nat
  priceWeekday : Option ℚ
  priceWeekend : Option ℚ
  isActive : Bool
deriving DecidableEq, Repr

/-- The result record of `calculatePrice` in `src/lib/pricing.ts`. -/
structure PricingCalculation where
  basePrice : ℤ
  discountAmount : ℤ
  totalPrice : ℤ
  duration : ℚ
  isWeekend : Bool
deriving DecidableEq, Repr

/-- The thrown errors of `calculatePrice` in `src/lib/pricing.ts`
(the fetch-failure path is infrastructure and not modelled). -/
inductive ClientPriceError
  /-- `'No pricing information available for this venue'` -/
  | noPricingInformation
  /-- `'No pricing available for the selected time slot'` -/
  | noPricingAvailable
deriving DecidableEq, Repr

/-- JavaScript `x || d` on a nullable number: `null` and `0` are falsy. -/
def jsOrDefault (x : Option ℚ) (d : ℚ) : ℚ :=
  match x with
  | none => d
  | some q => if q = 0 then d else q

/-- Embeds `calculatePrice` from `src/lib/pricing.ts`, applied to the already
fetched `is_active` slots of the venue (`dateDow` is `date.getDay()`).
The applicable slot is the first fetched slot containing the whole
requested interval (`start >= slotStart && end <= slotEnd`); the hourly
rate is the slot's day-class price (`|| 0`), and the duration is kept in
minutes, divided by 60 for the price. -/
def pricing_calculatePrice (timeSlots : List ClientTimeSlot) (dateDow : Nat)
    (startT endT : Nat) (discountPercent : ℚ) :
    Except ClientPriceError PricingCalculation :=
  let isWeekend : Bool := decide (dateDow = 0) || decide (dateDow = 6)
  let duration : ℚ := (endT : ℚ) - (startT : ℚ)
  if timeSlots.isEmpty then
    .error .noPricingInformation
  else
    match timeSlots.find? (fun slot =>
        decide (slot.startTime ≤ startT) && decide (endT ≤ slot.endTime)) with
    | none => .error .noPricingAvailable
    | some applicableSlot =>
      let hourlyRate : ℚ :=
        if isWeekend then jsOrDefault applicableSlot.priceWeekend 0
        else jsOrDefault applicableSlot.priceWeekday 0
      let basePrice := hourlyRate * duration / 60
      let discountAmount := basePrice * discountPercent / 100
      let totalPrice := basePrice - discountAmount
      .ok { basePrice := jsRound basePrice
            discountAmount := jsRound discountAmount
            totalPrice := jsRound totalPrice
            duration := duration
            isWeekend := isWeekend }

/-- Embeds `calculatePrice` from
`src/components/features/booking/booking-form.tsx`: find the slot whose
`start_time` equals the chosen start, take the venue's day-class base
price (`weekend_price` when weekend and truthy, else `base_price`),
multiply by the slot's day-class multiplier (`price_weekend || 1` /
`price_weekday || 1`) and the duration in hours, and `Math.round`.
Returns 0 when no slot matches the start time. -/
def bookingForm_calculatePrice (venue : Venue) (timeSlots : List ClientTimeSlot)
    (dateDow : Nat) (startT endT : Nat) : ℤ :=
  match timeSlots.find? (fun slot => decide (slot.startTime = startT)) with
  | none => 0
  | some startSlot =>
    let duration : ℚ := ((endT : ℚ) - (startT : ℚ)) / 60
    let isWeekend : Bool := decide (dateDow = 0) || decide (dateDow = 6)
    let basePrice : ℚ :=
      if isWeekend && decide (jsOrDefault venue.weekendPrice 0 ≠ 0) then
        venue.weekendPrice.getD 0
      else venue.basePrice
    let pricePerHour : ℚ :=
      basePrice *
        (if isWeekend then jsOrDefault startSlot.priceWeekend 1
         else jsOrDefault startSlot.priceWeekday 1)
    jsRound (pricePerHour * duration)

/-- The duration the booking form's `onSubmit` passes to the
`create_reservation` RPC: `(end.getTime() - start.getTime()) / (1000*60*60)`
hours, i.e. the minute difference divided by 60. -/
def onSubmit_duration_hours (startT endT : Nat) : ℚ :=
  ((endT : ℚ) - (startT : ℚ)) / 60

/-- Decidable equality for `Except` results, so that witnesses can be
checked by `decide`. -/
instance {e a : Type} [DecidableEq e] [DecidableEq a] : DecidableEq (Except e a) :=
  fun x y =>
    match x, y with
    | .ok u, .ok v =>
      if h : u = v then .isTrue (by rw [h]) else .isFalse (fun hh => by cases hh; exact h rfl)
    | .error u, .error v =>
      if h : u = v then .isTrue (by rw [h]) else .isFalse (fun hh => by cases hh; exact h rfl)
    | .ok _, .error _ => .isFalse (fun hh => by cases hh)
    | .error _, .ok _ => .isFalse (fun hh => by cases hh)

/-- A concrete cancelled reservation used by the C1 witness. -/
def sampleCancelledRes : Reservation :=
  { id := 7
    reservationCode := "OSC202601010042"
    userId := 2
    venueId := 1
    venueTimeSlotId := 3
    reservationDate := 0
    startTime := 600
    endTime := 660
    durationHours := 1
    basePrice := 100000
    discountPercentage := 0
    totalPrice := 100000
    status := .cancelled
    notes := none }

/-- The empty database, used by witnesses. -/
def emptyDB : DB := { venues := [], timeSlots := [], reservations := [], profiles := [] }

/-- Database for the C3 witness: one active venue priced 100000 on
weekdays, one available hourly slot with multiplier 1. -/
def dbC3 : DB :=
  { venues := [{ id := 1, basePrice := 100000, weekendPrice := none, isActive := true }]
    timeSlots := [{ id := 2, venueId := 1, startTime := 600, endTime := 720,
                    isAvailable := true, priceMultiplier := some 1 }]
    reservations := []
    profiles := [] }

/-- Venue for the C5 witness: weekday price 150000, weekend price 200000. -/
def vC5 : Venue := { id := 1, basePrice := 150000, weekendPrice := some 200000, isActive := true }

/-- Slot for the C5 witness: 10:00–12:00, multiplier 1.0. -/
def slotC5 : VenueTimeSlot :=
  { id := 2, venueId := 1, startTime := 600, endTime := 720,
    isAvailable := true, priceMultiplier := some 1 }

/-- Database for the C5 witness. -/
def dbC5 : DB :=
  { venues := [vC5], timeSlots := [slotC5], reservations := [], profiles := [] }

/-- Modelled from the spec (claim C6): the claimed price formula —
`basePricePerHour × slotMultiplier(dayClass) × durationHours`, rounded to
the nearest whole currency unit (no fractional sub-units). -/
def spec_wholeUnitPrice (basePricePerHour dayClassMultiplier durationHours : ℚ) : ℚ :=
  ((jsRound (basePricePerHour * dayClassMultiplier * durationHours) : ℤ) : ℚ)

/-- Database for the C6 counterexample: active venue with weekday base
price 101, one all-day available slot with multiplier 1. -/
def dbC6 : DB :=
  { venues := [{ id := 1, basePrice := 101, weekendPrice := none, isActive := true }]
    timeSlots := [{ id := 2, venueId := 1, startTime := 0, endTime := 1440,
                    isAvailable := true, priceMultiplier := some 1 }]
    reservations := []
    profiles := [] }

/-- Client slot for the C6 witness: 10:00–12:00, weekday multiplier 1. -/
def clientSlotC6 : ClientTimeSlot :=
  { id := 2, venueId := 1, startTime := 600, endTime := 720,
    priceWeekday := some 1, priceWeekend := some 2, isActive := true }

/-- Database for C7: one active venue and no time slots at all. -/
def dbC7 : DB :=
  { venues := [{ id := 1, basePrice := 100, weekendPrice := none, isActive := true }]
    timeSlots := []
    reservations := []
    profiles := [] }

/-- Client slot for C7: 08:00–10:00, so it contains a 09:00 start but not
an 12:00 end. -/
def clientSlotC7 : ClientTimeSlot :=
  { id := 3, venueId := 1, startTime := 480, endTime := 600,
    priceWeekday := some 50000, priceWeekend := some 60000, isActive := true }

/-- Pending reservation owned by user 10, used by the C8 witness. -/
def resC8 : Reservation :=
  { id := 1, reservationCode := "OSC202601010001", userId := 10, venueId := 1,
    venueTimeSlotId := 2, reservationDate := 3, startTime := 600, endTime := 660,
    durationHours := 1, basePrice := 100000, discountPercentage := 0,
    totalPrice := 100000, status := .pending, notes := none }

/-- The same reservation already completed, for the no-op case. -/
def resC8completed : Reservation := { resC8 with status := .completed }

/-- Customer profile of user 10. -/
def profC8 : Profile := { id := 10, role := .customer }

/-- Database with the pending reservation. -/
def dbC8 : DB :=
  { venues := [], timeSlots := [], reservations := [resC8], profiles := [profC8] }

/-- Database with the completed reservation. -/
def dbC8completed : DB :=
  { venues := [], timeSlots := [], reservations := [resC8completed], profiles := [profC8] }

/-- The booking form's input to the zod `bookingSchema`
(`src/lib/validations/booking.ts`): times are parsed minutes since
midnight, `none` standing for the empty string (falsy in the refinement,
and failing the `min(1)` length check). -/
structure BookingFormInput where
  venueId : String
  date : String
  startTime : Option Nat
  endTime : Option Nat
  notes : Option String

/-- The zod `bookingSchema` validation: every field nonempty, and the
refinement `end > start && durationHours >= 1` (duration computed from the
millisecond difference, i.e. minutes / 60 in hours) whenever both times
are present. -/
def bookingSchema_check (d : BookingFormInput) : Bool :=
  decide (d.venueId.length ≥ 1) && decide (d.date.length ≥ 1) &&
  d.startTime.isSome && d.endTime.isSome &&
  (match d.startTime, d.endTime with
   | some s, some e =>
     decide ((s : ℚ) < (e : ℚ) ∧ ((e : ℚ) - (s : ℚ)) / 60 ≥ 1)
   | _, _ => true)

/-- A fetched reservation window (`select('start_time, end_time')`) used
by the booking form's conflict checks. -/
structure ReservationWindow where
  startTime : Nat
  endTime : Nat
deriving DecidableEq, Repr

/-- The loop body of `getEndTimeOptions` in
`src/components/features/booking/booking-form.tsx`: `checked` is the
slice `timeSlots.slice(startIndex, i + 1)` accumulated so far. A slot
whose end lies less than one hour after the chosen start is skipped
(`continue`); if any slot of the slice overlaps an existing reservation
the loop stops (`break`); otherwise the slot's end time is offered. -/
def getEndTimeOptionsAux (startTime : Nat) (reservations : List ReservationWindow) :
    List ClientTimeSlot → List ClientTimeSlot → List Nat
  | _, [] => []
  | checked, slot :: rest =>
    let checked' := checked ++ [slot]
    if ((slot.endTime : ℚ) - (startTime : ℚ)) / 60 < 1 then
      getEndTimeOptionsAux startTime reservations checked' rest
    else if checked'.any (fun c => reservations.any (fun rsv =>
        decide (c.startTime < rsv.endTime) && decide (c.endTime > rsv.startTime))) then
      []
    else
      slot.endTime :: getEndTimeOptionsAux startTime reservations checked' rest

/-- Embeds `getEndTimeOptions` from the booking form: empty for an empty start
time or an unknown start slot, otherwise the loop from the slot whose
`start_time` equals the chosen start. -/
def getEndTimeOptions (timeSlots : List ClientTimeSlot)
    (reservations : List ReservationWindow) (startTime : Option Nat) : List Nat :=
  match startTime with
  | none => []
  | some st =>
    match timeSlots.findIdx? (fun slot => decide (slot.startTime = st)) with
    | none => []
    | some startIndex =>
      getEndTimeOptionsAux st reservations [] (timeSlots.drop startIndex)

/-- Form input for the C10 witness: 10:00–11:00. -/
def formC10 : BookingFormInput :=
  { venueId := "v", date := "2026-01-06", startTime := some 600,
    endTime := some 660, notes := none }

/-- Hourly client slots for the C10 witness. -/
def cSlotC10a : ClientTimeSlot :=
  { id := 1, venueId := 1, startTime := 600, endTime := 660,
    priceWeekday := some 1, priceWeekend := some 1, isActive := true }

/-- Second hourly slot for the C10 witness. -/
def cSlotC10b : ClientTimeSlot :=
  { id := 2, venueId := 1, startTime := 660, endTime := 720,
    priceWeekday := some 1, priceWeekend := some 1, isActive := true }

/-! ### Theorems -/

/-- Helper: the availability check succeeds exactly when no reservation
row satisfies the conflict predicate of the SQL `WHERE` clause. -/
theorem check_venue_availability_eq_true_iff (rs : List Reservation)
    (venueId date s e : Nat) :
    check_venue_availability rs venueId date s e none = true ↔
      ∀ r ∈ rs, ¬ (r.venueId = venueId ∧ r.reservationDate = date ∧
        (r.status = .confirmed ∨ r.status = .pending) ∧
        r.startTime < e ∧ r.endTime > s) := by
  simp only [check_venue_availability, List.countP_eq_zero, Bool.and_eq_true,
    decide_eq_true_eq]
  constructor
  · intro h r hr hc
    exact h r hr ⟨⟨⟨⟨hc.1, hc.2.1⟩, hc.2.2.1⟩, hc.2.2.2.1, hc.2.2.2.2⟩, trivial⟩
  · intro h r hr hc
    exact h r hr ⟨hc.1.1.1.1, hc.1.1.1.2, hc.1.1.2, hc.1.2.1, hc.1.2.2⟩

/-- C1: `check_venue_availability` returns `true` iff no reservation for
that venue and date with status pending or confirmed satisfies the
half-open overlap test `existingStart < candidateEnd ∧ existingEnd >
candidateStart`; with zero pending/confirmed reservations it returns
`true`, exactly-adjacent intervals do not conflict, and
cancelled/completed reservations never block. -/
theorem claim_C1_availability_iff_no_overlap (rs : List Reservation)
    (venueId date s e : Nat) :
    (check_venue_availability rs venueId date s e none = true ↔
      ¬ ∃ r ∈ rs, r.venueId = venueId ∧ r.reservationDate = date ∧
        (r.status = .pending ∨ r.status = .confirmed) ∧
        r.startTime < e ∧ r.endTime > s)
    ∧ check_venue_availability [] venueId date s e none = true
    ∧ ((∀ r ∈ rs, r.venueId = venueId → r.reservationDate = date →
          (r.status = .pending ∨ r.status = .confirmed) →
          e ≤ r.startTime ∨ r.endTime ≤ s) →
        check_venue_availability rs venueId date s e none = true)
    ∧ ((∀ r ∈ rs, r.status = .cancelled ∨ r.status = .completed) →
        check_venue_availability rs venueId date s e none = true) := by
  refine ⟨?_, ?_, ?_, ?_⟩
  · rw [check_venue_availability_eq_true_iff]
    constructor
    · intro h hex
      obtain ⟨r, hr, h1, h2, h3, h4⟩ := hex
      exact h r hr ⟨h1, h2, h3.symm, h4⟩
    · intro h r hr hc
      exact h ⟨r, hr, hc.1, hc.2.1, hc.2.2.1.symm, hc.2.2.2⟩
  · rw [check_venue_availability_eq_true_iff]
    intro r hr
    exact absurd hr (List.not_mem_nil r)
  · intro h
    rw [check_venue_availability_eq_true_iff]
    intro r hr hc
    rcases h r hr hc.1 hc.2.1 hc.2.2.1.symm with h' | h'
    · exact absurd hc.2.2.2.1 (not_lt.mpr h')
    · exact absurd hc.2.2.2.2 (not_lt.mpr h')
  · intro h
    rw [check_venue_availability_eq_true_iff]
    intro r hr hc
    rcases h r hr with h' | h' <;>
      rcases hc.2.2.1 with h'' | h'' <;> simp [h'] at h''

/-- C1 witness: a cancelled reservation overlapping the candidate interval
does not block it. -/
theorem claim_C1_witness :
    check_venue_availability [sampleCancelledRes] 1 0 600 660 none = true :=
  (claim_C1_availability_iff_no_overlap [sampleCancelledRes] 1 0 600 660).2.2.2
    (by decide)

/-- Helper: every run of `create_reservation` either fails and leaves the
database untouched, or succeeds having passed every check, and then the
result is exactly the insertion of `create_reservation_row`. -/
theorem create_reservation_shape (db : DB) (dateStamp : String) (rands : List Nat)
    (newId uid vid sid date s e : Nat) (dur disc : ℚ) (notes : Option String) :
    (∃ err, create_reservation db dateStamp rands newId uid vid sid date s e
        dur disc notes = (.error err, db)) ∨
    (∃ base code,
      calculate_venue_price db vid date s dur = .ok (some base) ∧
      generate_reservation_code (db.reservations.map (fun r => r.reservationCode))
        dateStamp rands = some code ∧
      (s < e ∧ 0 ≤ disc ∧ disc ≤ 100) ∧
      create_reservation db dateStamp rands newId uid vid sid date s e dur disc notes
        = (.ok newId,
           { db with reservations :=
              (create_reservation_row newId uid vid sid date s e dur disc notes
                base code) :: db.reservations })) := by
  unfold create_reservation
  split
  · exact Or.inl ⟨_, rfl⟩
  · split
    · exact Or.inl ⟨_, rfl⟩
    · split
      · exact Or.inl ⟨_, rfl⟩
      · split
        · exact Or.inl ⟨_, rfl⟩
        · next bp? heq =>
          split
          · exact Or.inl ⟨_, rfl⟩
          · next code hcode =>
            split
            · exact Or.inl ⟨_, rfl⟩
            · next bp2 base =>
              split
              · exact Or.inl ⟨_, rfl⟩
              · next hchk =>
                exact Or.inr ⟨base, code, heq, hcode, not_not.mp hchk, rfl⟩

/-- C2: `create_reservation` checks its preconditions in order — active
venue (else the `'Venue not found or inactive'` error), then a time slot
that exists, belongs to the venue and is available (else
`'Time slot not available'`), then the commit-time availability re-check
(else `'Time slot is already booked'`) — and any failure leaves the
database unchanged (no partial writes) while returning a distinct typed
error value. -/
theorem claim_C2_create_reservation_preconditions (db : DB) (dateStamp : String)
    (rands : List Nat) (newId uid vid sid date s e : Nat) (dur disc : ℚ)
    (notes : Option String) :
    (db.venues.any (fun v => decide (v.id = vid) && v.isActive) = false →
      create_reservation db dateStamp rands newId uid vid sid date s e dur disc notes
        = (.error .venueNotFoundOrInactive, db))
    ∧ (db.venues.any (fun v => decide (v.id = vid) && v.isActive) = true →
       db.timeSlots.any (fun vts => decide (vts.id = sid) &&
         decide (vts.venueId = vid) && vts.isAvailable) = false →
       create_reservation db dateStamp rands newId uid vid sid date s e dur disc notes
         = (.error .timeSlotNotAvailable, db))
    ∧ (db.venues.any (fun v => decide (v.id = vid) && v.isActive) = true →
       db.timeSlots.any (fun vts => decide (vts.id = sid) &&
         decide (vts.venueId = vid) && vts.isAvailable) = true →
       check_venue_availability db.reservations vid date s e none = false →
       create_reservation db dateStamp rands newId uid vid sid date s e dur disc notes
         = (.error .timeSlotAlreadyBooked, db))
    ∧ (∀ err,
       (create_reservation db dateStamp rands newId uid vid sid date s e
          dur disc notes).1 = .error err →
       (create_reservation db dateStamp rands newId uid vid sid date s e
          dur disc notes).2 = db) := by
  refine ⟨?_, ?_, ?_, ?_⟩
  · intro h
    simp [create_reservation, h]
  · intro h1 h2
    simp [create_reservation, h1, h2]
  · intro h1 h2 h3
    simp [create_reservation, h1, h2, h3]
  · intro err h
    rcases create_reservation_shape db dateStamp rands newId uid vid sid date s e
        dur disc notes with ⟨e', he'⟩ | ⟨base, code, _, _, _, hsucc⟩
    · rw [he']
    · rw [hsucc] at h
      exact absurd h (by simp)

/-- C2 witness: on the empty database the venue check fails first and the
call returns the venue error with the database unchanged. -/
theorem claim_C2_witness :
    create_reservation emptyDB "20260101" [0] 1 1 1 1 0 600 660 1 0 none
      = (.error .venueNotFoundOrInactive, emptyDB) :=
  (claim_C2_create_reservation_preconditions emptyDB "20260101" [0] 1 1 1 1 0 600 660
    1 0 none).1 (by decide)

/-- C3: when `create_reservation` succeeds, exactly one new reservation
row is prepended to the table (the rest is untouched), its status is the
column default `pending`, its `base_price` is the `calculate_venue_price`
result, and its `total_price` equals
`base_price * (1 - discount_percentage / 100)`. -/
theorem claim_C3_create_reservation_success (db : DB) (dateStamp : String)
    (rands : List Nat) (newId uid vid sid date s e : Nat) (dur disc : ℚ)
    (notes : Option String) (resId : Nat)
    (h : (create_reservation db dateStamp rands newId uid vid sid date s e
            dur disc notes).1 = .ok resId) :
    ∃ r, (create_reservation db dateStamp rands newId uid vid sid date s e
            dur disc notes).2.reservations = r :: db.reservations ∧
      r.status = .pending ∧
      calculate_venue_price db vid date s dur = .ok (some r.basePrice) ∧
      r.totalPrice = r.basePrice * (1 - disc / 100) := by
  rcases create_reservation_shape db dateStamp rands newId uid vid sid date s e
      dur disc notes with ⟨err, herr⟩ | ⟨base, code, hcalc, _, _, hsucc⟩
  · rw [herr] at h
    exact absurd h (by simp)
  · rw [hsucc]
    exact ⟨create_reservation_row newId uid vid sid date s e dur disc notes base code,
      rfl, rfl, hcalc, rfl⟩

/-- C3 witness: a 10% discount on a 100000 weekday booking stores a
pending row with total price 90000. -/
theorem claim_C3_witness :
    ∃ r, (create_reservation dbC3 "20260101" [0] 9 5 1 2 3 600 660 1 10
            none).2.reservations = r :: dbC3.reservations ∧
      r.status = .pending ∧ r.totalPrice = 90000 := by
  obtain ⟨r, hrow, hst, hcalc, htp⟩ :=
    claim_C3_create_reservation_success dbC3 "20260101" [0] 9 5 1 2 3 600 660 1 10
      none 9 (by
        norm_num [create_reservation, calculate_venue_price, check_venue_availability,
          generate_reservation_code, lpad4, dbC3, dow, pgRound2, Rat.floor])
  have hc : calculate_venue_price dbC3 1 3 600 1 = .ok (some 100000) := by
    norm_num [calculate_venue_price, dbC3, dow, pgRound2, Rat.floor]
  have h2 := hcalc.symm.trans hc
  simp only [Except.ok.injEq, Option.some.injEq] at h2
  refine ⟨r, hrow, hst, ?_⟩
  rw [htp, h2]
  norm_num

/-- Helper: a successfully generated reservation code has the
prefix+stamp+suffix shape and collides with no existing code. -/
theorem generate_reservation_code_fresh (existing : List String) (stamp : String) :
    ∀ rands c, generate_reservation_code existing stamp rands = some c →
      c ∉ existing ∧ ∃ r ∈ rands, c = "OSC" ++ stamp ++ lpad4 r := by
  intro rands
  induction rands with
  | nil => intro c h; cases h
  | cons r rest ih =>
    intro c h
    simp only [generate_reservation_code] at h
    by_cases hc : existing.contains ("OSC" ++ stamp ++ lpad4 r)
    · rw [if_pos hc] at h
      obtain ⟨hmem, r', hr', hform⟩ := ih c h
      exact ⟨hmem, r', List.mem_cons_of_mem r hr', hform⟩
    · rw [if_neg hc] at h
      cases h
      refine ⟨?_, r, List.mem_cons_self r rest, rfl⟩
      intro hmem
      exact hc (List.elem_iff.mpr hmem)

/-- C4: `generate_reservation_code` produces `'OSC' + date stamp +
four-digit suffix` codes, retrying until the candidate is absent from the
existing code set, so a returned code is distinct from every existing
code; and iterating it (each code joining the set, as `create_reservation`
inserts each) never yields a duplicate. -/
theorem claim_C4_reservation_codes_unique :
    (∀ (existing : List String) (stamp : String) (rands : List Nat) (c : String),
      generate_reservation_code existing stamp rands = some c →
        c ∉ existing ∧ ∃ r ∈ rands, c = "OSC" ++ stamp ++ lpad4 r)
    ∧ (∀ (calls : List (String × List Nat)) (existing : List String)
        (cs : List String),
      generate_reservation_codes existing calls = some cs →
        cs.Nodup ∧ ∀ c ∈ cs, c ∉ existing) := by
  refine ⟨generate_reservation_code_fresh, ?_⟩
  intro calls
  induction calls with
  | nil =>
    intro existing cs h
    cases h
    exact ⟨List.nodup_nil, by simp⟩
  | cons call rest ih =>
    intro existing cs h
    obtain ⟨stamp, rands⟩ := call
    simp only [generate_reservation_codes] at h
    rcases hg : generate_reservation_code existing stamp rands with _ | c
    · rw [hg] at h; cases h
    · rw [hg] at h
      have h' : Option.map (fun cs => c :: cs)
          (generate_reservation_codes (c :: existing) rest) = some cs := h
      obtain ⟨cs', hr, rfl⟩ := Option.map_eq_some'.mp h'
      obtain ⟨hnodup, hfresh⟩ := ih (c :: existing) cs' hr
      obtain ⟨hcex, -⟩ := generate_reservation_code_fresh existing stamp rands c hg
      refine ⟨List.nodup_cons.mpr ⟨?_, hnodup⟩, ?_⟩
      · intro hcin
        exact (hfresh c hcin) (List.mem_cons_self c existing)
      · intro x hx
        rcases List.mem_cons.mp hx with rfl | hx'
        · exact hcex
        · intro hxex
          exact (hfresh x hx') (List.mem_cons_of_mem c hxex)

/-- C4 witness: two successive generations against a one-element code set,
with colliding draws retried, yield fresh pairwise-distinct codes. -/
theorem claim_C4_witness :
    generate_reservation_codes ["OSC202601010007"]
        [("20260101", [7, 3]), ("20260101", [3, 1])]
      = some ["OSC202601010003", "OSC202601010001"]
    ∧ (["OSC202601010003", "OSC202601010001"] : List String).Nodup
    ∧ ∀ c ∈ (["OSC202601010003", "OSC202601010001"] : List String),
        c ∉ (["OSC202601010007"] : List String) := by
  have h : generate_reservation_codes ["OSC202601010007"]
      [("20260101", [7, 3]), ("20260101", [3, 1])]
      = some ["OSC202601010003", "OSC202601010001"] := by decide
  obtain ⟨h1, h2⟩ := claim_C4_reservation_codes_unique.2
    [("20260101", [7, 3]), ("20260101", [3, 1])] ["OSC202601010007"]
    ["OSC202601010003", "OSC202601010001"] h
  exact ⟨h, h1, h2⟩

/-- C5: `calculate_venue_price` picks the venue's rate by day class:
on a Saturday or Sunday with `weekend_price` set it uses the weekend
price, otherwise (weekday, or weekend price NULL) the weekday
`base_price`; the slot multiplier and duration then scale that rate. -/
theorem claim_C5_day_class_base_price (db : DB) (vid date s : Nat) (dur : ℚ)
    (v : Venue) (slot : VenueTimeSlot)
    (hv : db.venues.find? (fun v => decide (v.id = vid) && v.isActive) = some v)
    (hs : db.timeSlots.find? (fun vts =>
        decide (vts.venueId = vid) && decide (vts.startTime ≤ s) &&
        decide (vts.endTime > s) && vts.isAvailable) = some slot) :
    ((dow date = 0 ∨ dow date = 6) → ∀ w, v.weekendPrice = some w →
      calculate_venue_price db vid date s dur
        = .ok (some (pgRound2 (w * slot.priceMultiplier.getD 1 * dur))))
    ∧ ((dow date = 0 ∨ dow date = 6) → v.weekendPrice = none →
      calculate_venue_price db vid date s dur
        = .ok (some (pgRound2 (v.basePrice * slot.priceMultiplier.getD 1 * dur))))
    ∧ (¬ (dow date = 0 ∨ dow date = 6) →
      calculate_venue_price db vid date s dur
        = .ok (some (pgRound2 (v.basePrice * slot.priceMultiplier.getD 1 * dur)))) := by
  unfold calculate_venue_price
  rw [hv, hs]
  refine ⟨?_, ?_, ?_⟩
  · intro hwk w hww
    rcases hwk with h0 | h6
    · simp [h0, hww]
    · simp [h6, hww]
  · intro hwk hww
    rcases hwk with h0 | h6
    · simp [h0, hww]
    · simp [h6, hww]
  · intro hwk
    rw [not_or] at hwk
    obtain ⟨h0, h6⟩ := hwk
    simp [h0, h6]

/-- C5 witness: with weekend price 200000 and weekday price 150000 and a
multiplier-1.0 slot, a 1-hour booking prices at 200000 on a Saturday
(date 0) and 150000 on a Tuesday (date 3). -/
theorem claim_C5_witness :
    calculate_venue_price dbC5 1 0 600 1 = .ok (some 200000)
    ∧ calculate_venue_price dbC5 1 3 600 1 = .ok (some 150000) := by
  constructor
  · have h1 := (claim_C5_day_class_base_price dbC5 1 0 600 1 vC5 slotC5 rfl rfl).1
      (by decide) 200000 rfl
    rw [h1]
    norm_num [pgRound2, Rat.floor, slotC5]
  · have h2 := (claim_C5_day_class_base_price dbC5 1 3 600 1 vC5 slotC5 rfl rfl).2.2
      (by decide)
    rw [h2]
    norm_num [pgRound2, Rat.floor, vC5, slotC5]

/-- Helper: when the venue and a containing available slot are found, the
database price is the day-class rate times the slot's single multiplier
times the duration, rounded by `ROUND(., 2)`. -/
theorem calculate_venue_price_found (db : DB) (vid date s : Nat) (dur : ℚ)
    (v : Venue) (slot : VenueTimeSlot)
    (hv : db.venues.find? (fun v => decide (v.id = vid) && v.isActive) = some v)
    (hs : db.timeSlots.find? (fun vts =>
        decide (vts.venueId = vid) && decide (vts.startTime ≤ s) &&
        decide (vts.endTime > s) && vts.isAvailable) = some slot) :
    calculate_venue_price db vid date s dur
      = .ok (some (pgRound2
          (if ((decide (dow date = 0) || decide (dow date = 6)) &&
                v.weekendPrice.isSome) = true
           then v.weekendPrice.getD 0 * slot.priceMultiplier.getD 1 * dur
           else v.basePrice * slot.priceMultiplier.getD 1 * dur))) := by
  unfold calculate_venue_price
  rw [hv, hs]
  rfl

/-- C6 (amended): the stored booking price from `calculate_venue_price`
equals the day-class base rate (weekend price when set and weekend, else
weekday base price) times the slot's single `price_multiplier` (the same
value on every day, defaulting to 1.0 when NULL) times `durationHours`,
rounded to two decimal places — not to a whole currency unit, and with no
per-day-class multiplier pair; the booking form's displayed estimate, in
contrast, multiplies the day-class base rate by the slot's day-class
multiplier (`price_weekend || 1` / `price_weekday || 1`) and the duration
in hours and rounds to the nearest whole unit. -/
theorem claim_C6_amended_price_formula (db : DB) (vid date s : Nat) (dur : ℚ)
    (v : Venue) (slot : VenueTimeSlot)
    (venue : Venue) (slots : List ClientTimeSlot) (dateDow startT endT : Nat)
    (startSlot : ClientTimeSlot)
    (hv : db.venues.find? (fun v => decide (v.id = vid) && v.isActive) = some v)
    (hs : db.timeSlots.find? (fun vts =>
        decide (vts.venueId = vid) && decide (vts.startTime ≤ s) &&
        decide (vts.endTime > s) && vts.isAvailable) = some slot)
    (hss : slots.find? (fun sl => decide (sl.startTime = startT)) = some startSlot) :
    calculate_venue_price db vid date s dur
      = .ok (some (pgRound2
          ((if ((decide (dow date = 0) || decide (dow date = 6)) &&
                 v.weekendPrice.isSome) = true
            then v.weekendPrice.getD 0 else v.basePrice)
           * slot.priceMultiplier.getD 1 * dur)))
    ∧ bookingForm_calculatePrice venue slots dateDow startT endT
      = jsRound
          ((if ((decide (dateDow = 0) || decide (dateDow = 6)) &&
                 decide (jsOrDefault venue.weekendPrice 0 ≠ 0)) = true
            then venue.weekendPrice.getD 0 else venue.basePrice)
           * (if (decide (dateDow = 0) || decide (dateDow = 6)) = true
              then jsOrDefault startSlot.priceWeekend 1
              else jsOrDefault startSlot.priceWeekday 1)
           * (((endT : ℚ) - (startT : ℚ)) / 60)) := by
  constructor
  · rw [calculate_venue_price_found db vid date s dur v slot hv hs]
    by_cases hb : ((decide (dow date = 0) || decide (dow date = 6)) &&
        v.weekendPrice.isSome) = true
    · simp only [if_pos hb]
    · simp only [if_neg hb]
  · unfold bookingForm_calculatePrice
    rw [hss]

/-- C6 counterexample: with weekday base 101, multiplier 1 and duration
1/4 hour, the database stores 101/4 = 25.25 — a price with fractional
sub-units, different from the whole-unit rounding the claim states. -/
theorem claim_C6_counterexample :
    calculate_venue_price dbC6 1 3 540 (1/4) = .ok (some (101/4))
    ∧ spec_wholeUnitPrice 101 1 (1/4) = 25
    ∧ (101/4 : ℚ) ≠ spec_wholeUnitPrice 101 1 (1/4)
    ∧ (((101/4 : ℚ).floor : ℚ)) ≠ (101/4 : ℚ) := by
  refine ⟨?_, ?_, ?_, ?_⟩
  · norm_num [calculate_venue_price, dbC6, dow, pgRound2, Rat.floor]
  · norm_num [spec_wholeUnitPrice, jsRound, Rat.floor]
  · norm_num [spec_wholeUnitPrice, jsRound, Rat.floor]
  · norm_num [Rat.floor]

/-- C6 witness: both amended formulas evaluated on a Tuesday — the stored
price of a half-hour weekday booking at rate 150000 is 75000, and the
booking form's displayed price for one hour is 150000. -/
theorem claim_C6_witness :
    calculate_venue_price dbC5 1 3 600 (1/2) = .ok (some 75000)
    ∧ bookingForm_calculatePrice vC5 [clientSlotC6] 3 600 660 = 150000 := by
  obtain ⟨h1, h2⟩ := claim_C6_amended_price_formula dbC5 1 3 600 (1/2) vC5 slotC5
    vC5 [clientSlotC6] 3 600 660 clientSlotC6 rfl rfl rfl
  constructor
  · rw [h1]
    norm_num [dow, vC5, slotC5, pgRound2, Rat.floor]
  · rw [h2]
    norm_num [dow, vC5, clientSlotC6, jsOrDefault, jsRound, Rat.floor]

/-- C7 (amended): when no available slot of the venue contains
`candidateStart`, the database `calculate_venue_price` returns a NULL
price (`.ok none`) instead of raising any error; the client-side
`calculatePrice` of `src/lib/pricing.ts` does fail with the
`'No pricing available for the selected time slot'` error, but its lookup
requires the slot to contain the whole candidate interval, not just
`candidateStart`, and in both functions the first matching slot wins. -/
theorem claim_C7_amended_no_slot_behaviour (db : DB) (vid date s : Nat) (dur : ℚ)
    (v : Venue)
    (hv : db.venues.find? (fun v => decide (v.id = vid) && v.isActive) = some v)
    (hns : db.timeSlots.find? (fun vts =>
        decide (vts.venueId = vid) && decide (vts.startTime ≤ s) &&
        decide (vts.endTime > s) && vts.isAvailable) = none) :
    calculate_venue_price db vid date s dur = .ok none
    ∧ (∀ (slots : List ClientTimeSlot) (dateDow startT endT : Nat) (disc : ℚ),
        slots ≠ [] →
        slots.find? (fun slot =>
          decide (slot.startTime ≤ startT) && decide (endT ≤ slot.endTime)) = none →
        pricing_calculatePrice slots dateDow startT endT disc
          = .error .noPricingAvailable) := by
  constructor
  · unfold calculate_venue_price
    rw [hv, hns]
    rfl
  · intro slots dateDow startT endT disc hne hnone
    unfold pricing_calculatePrice
    rw [if_neg (by simpa [List.isEmpty_iff] using hne), hnone]

/-- C7 counterexample: with an active venue and no slot containing the
candidate start, `calculate_venue_price` returns `.ok none` — a NULL
price, not a `'no pricing available'` failure; and the client calculator
rejects (errors on) a request whose slot contains the start but not the
end, which the claimed contains-candidateStart lookup would accept. -/
theorem claim_C7_counterexample :
    calculate_venue_price dbC7 1 3 540 1 = .ok none
    ∧ pricing_calculatePrice [clientSlotC7] 3 540 720 0
        = .error .noPricingAvailable
    ∧ clientSlotC7.startTime ≤ 540 ∧ 540 < clientSlotC7.endTime := by
  refine ⟨rfl, rfl, by decide, by decide⟩

/-- C7 witness: the amended theorem applied to the concrete database with
no slots and to a concrete one-slot client request. -/
theorem claim_C7_witness :
    calculate_venue_price dbC7 1 5 540 1 = .ok none
    ∧ pricing_calculatePrice [clientSlotC7] 5 540 720 0
        = .error .noPricingAvailable := by
  obtain ⟨h1, h2⟩ := claim_C7_amended_no_slot_behaviour dbC7 1 5 540 1
    { id := 1, basePrice := 100, weekendPrice := none, isActive := true } rfl rfl
  exact ⟨h1, h2 [clientSlotC7] 5 540 720 0 (by simp) rfl⟩

/-- C8: with unique reservation and profile ids, and the acting user
present in `profiles`, `cancel_reservation` on an existing reservation
returns `ok true` (success) iff the user owns the reservation or holds an
elevated role AND the status is pending or confirmed; an unauthorized user
gets the `'Unauthorized to cancel this reservation'` error with the
database unchanged; an authorized call on a cancelled/completed
reservation returns `ok false` leaving everything unchanged; and a
successful call sets exactly that reservation's status to cancelled,
keeping all other rows. -/
theorem claim_C8_cancel_reservation (db : DB) (rid uid : Nat)
    (r : Reservation) (p : Profile)
    (hnd : (db.reservations.map (fun x => x.id)).Nodup)
    (hpnd : (db.profiles.map (fun x => x.id)).Nodup)
    (hr : r ∈ db.reservations) (hrid : r.id = rid)
    (hp : p ∈ db.profiles) (hpid : p.id = uid) :
    ((cancel_reservation db rid uid).1 = .ok true ↔
      ((r.userId = uid ∨ p.role = .staff ∨ p.role = .admin ∨ p.role = .superadmin) ∧
       (r.status = .pending ∨ r.status = .confirmed)))
    ∧ (¬ (r.userId = uid ∨ p.role = .staff ∨ p.role = .admin ∨ p.role = .superadmin) →
        cancel_reservation db rid uid = (.error .unauthorizedToCancel, db))
    ∧ ((r.userId = uid ∨ p.role = .staff ∨ p.role = .admin ∨ p.role = .superadmin) →
       ¬ (r.status = .pending ∨ r.status = .confirmed) →
        cancel_reservation db rid uid = (.ok false, db))
    ∧ ((r.userId = uid ∨ p.role = .staff ∨ p.role = .admin ∨ p.role = .superadmin) →
       (r.status = .pending ∨ r.status = .confirmed) →
        (cancel_reservation db rid uid).1 = .ok true ∧
        { r with status := .cancelled } ∈ (cancel_reservation db rid uid).2.reservations ∧
        ∀ x ∈ db.reservations, x.id ≠ rid →
          x ∈ (cancel_reservation db rid uid).2.reservations) := by
  have hex : db.reservations.any (fun x => decide (x.id = rid)) = true :=
    List.any_eq_true.mpr ⟨r, hr, by simp [hrid]⟩
  have hown_iff : (db.reservations.any (fun x => db.profiles.any (fun q =>
      decide (q.id = uid) && decide (x.id = rid) &&
      (decide (x.userId = uid) ||
       decide (q.role = .staff ∨ q.role = .admin ∨ q.role = .superadmin)))) = true)
      ↔ (r.userId = uid ∨ p.role = .staff ∨ p.role = .admin ∨ p.role = .superadmin) := by
    rw [List.any_eq_true]
    constructor
    · rintro ⟨x, hx, hx2⟩
      rw [List.any_eq_true] at hx2
      obtain ⟨q, hq, hq2⟩ := hx2
      simp only [Bool.and_eq_true, Bool.or_eq_true, decide_eq_true_eq] at hq2
      obtain ⟨⟨hqid, hxid⟩, hor⟩ := hq2
      have hxr : x = r := List.inj_on_of_nodup_map hnd hx hr (by rw [hxid, hrid])
      have hqp : q = p := List.inj_on_of_nodup_map hpnd hq hp (by rw [hqid, hpid])
      subst hxr; subst hqp
      rcases hor with h1 | h1
      · exact Or.inl h1
      · exact Or.inr h1
    · intro h
      refine ⟨r, hr, List.any_eq_true.mpr ⟨p, hp, ?_⟩⟩
      simp only [Bool.and_eq_true, Bool.or_eq_true, decide_eq_true_eq]
      rcases h with h1 | h1
      · exact ⟨⟨hpid, hrid⟩, Or.inl h1⟩
      · exact ⟨⟨hpid, hrid⟩, Or.inr h1⟩
  have hfound_iff : (db.reservations.any (fun x =>
      decide (x.id = rid) &&
      decide (x.status = .pending ∨ x.status = .confirmed)) = true)
      ↔ (r.status = .pending ∨ r.status = .confirmed) := by
    rw [List.any_eq_true]
    constructor
    · rintro ⟨x, hx, hx2⟩
      simp only [Bool.and_eq_true, decide_eq_true_eq] at hx2
      obtain ⟨hxid, hst⟩ := hx2
      have hxr : x = r := List.inj_on_of_nodup_map hnd hx hr (by rw [hxid, hrid])
      subst hxr
      exact hst
    · intro h
      exact ⟨r, hr, by simp [hrid, h]⟩
  have hnotauth_own : ¬ (r.userId = uid ∨ p.role = .staff ∨ p.role = .admin ∨
      p.role = .superadmin) →
      (db.reservations.any (fun x => db.profiles.any (fun q =>
        decide (q.id = uid) && decide (x.id = rid) &&
        (decide (x.userId = uid) ||
         decide (q.role = .staff ∨ q.role = .admin ∨ q.role = .superadmin))))) = false :=
    fun hauth => Bool.not_eq_true _ ▸ (mt hown_iff.mp hauth)
  have hnotcanc_found : ¬ (r.status = .pending ∨ r.status = .confirmed) →
      (db.reservations.any (fun x =>
        decide (x.id = rid) &&
        decide (x.status = .pending ∨ x.status = .confirmed))) = false :=
    fun hcanc => Bool.not_eq_true _ ▸ (mt hfound_iff.mp hcanc)
  have hres_unauth : ∀ _ : (db.reservations.any (fun x => db.profiles.any (fun q =>
      decide (q.id = uid) && decide (x.id = rid) &&
      (decide (x.userId = uid) ||
       decide (q.role = .staff ∨ q.role = .admin ∨ q.role = .superadmin))))) = false,
      cancel_reservation db rid uid = (.error .unauthorizedToCancel, db) := by
    intro hown
    unfold cancel_reservation
    rw [hex, hown]
    norm_num
  have hres_auth : ∀ _ : (db.reservations.any (fun x => db.profiles.any (fun q =>
      decide (q.id = uid) && decide (x.id = rid) &&
      (decide (x.userId = uid) ||
       decide (q.role = .staff ∨ q.role = .admin ∨ q.role = .superadmin))))) = true,
      cancel_reservation db rid uid =
        (.ok (db.reservations.any (fun x =>
            decide (x.id = rid) &&
            decide (x.status = .pending ∨ x.status = .confirmed))),
         { db with reservations := db.reservations.map (fun x =>
            if x.id = rid ∧ (x.status = .pending ∨ x.status = .confirmed) then
              { x with status := .cancelled }
            else x) }) := by
    intro hown
    unfold cancel_reservation
    rw [hex, hown]
    norm_num
  have hmap_noop : ¬ (r.status = .pending ∨ r.status = .confirmed) →
      db.reservations.map (fun x =>
        if x.id = rid ∧ (x.status = .pending ∨ x.status = .confirmed) then
          { x with status := .cancelled }
        else x) = db.reservations := by
    intro hcanc
    have hcong : ∀ x ∈ db.reservations,
        (if x.id = rid ∧ (x.status = .pending ∨ x.status = .confirmed) then
          { x with status := ReservationStatus.cancelled }
        else x) = x := by
      intro x hx
      rw [if_neg]
      rintro ⟨hxid, hst⟩
      have hxr : x = r := List.inj_on_of_nodup_map hnd hx hr (by rw [hxid, hrid])
      subst hxr
      exact hcanc hst
    rw [List.map_congr_left hcong, List.map_id']
  refine ⟨?_, ?_, ?_, ?_⟩
  · by_cases hauth :
        (r.userId = uid ∨ p.role = .staff ∨ p.role = .admin ∨ p.role = .superadmin)
    · by_cases hcanc : (r.status = .pending ∨ r.status = .confirmed)
      · rw [hres_auth (hown_iff.mpr hauth), hfound_iff.mpr hcanc]
        exact iff_of_true rfl ⟨hauth, hcanc⟩
      · rw [hres_auth (hown_iff.mpr hauth), hnotcanc_found hcanc]
        exact iff_of_false (by simp) (fun h => hcanc h.2)
    · rw [hres_unauth (hnotauth_own hauth)]
      exact iff_of_false (by simp) (fun h => hauth h.1)
  · intro hauth
    exact hres_unauth (hnotauth_own hauth)
  · intro hauth hcanc
    rw [hres_auth (hown_iff.mpr hauth), hnotcanc_found hcanc, hmap_noop hcanc]
  · intro hauth hcanc
    rw [hres_auth (hown_iff.mpr hauth), hfound_iff.mpr hcanc]
    refine ⟨rfl, ?_, ?_⟩
    · have hform : ({ r with status := ReservationStatus.cancelled } : Reservation) =
          (if r.id = rid ∧ (r.status = .pending ∨ r.status = .confirmed) then
            { r with status := ReservationStatus.cancelled }
          else r) := by
        rw [if_pos ⟨hrid, hcanc⟩]
      rw [hform]
      exact List.mem_map_of_mem _ hr
    · intro x hx hxid
      have hform : x = (if x.id = rid ∧ (x.status = .pending ∨ x.status = .confirmed) then
          { x with status := ReservationStatus.cancelled }
        else x) := by
        rw [if_neg]
        rintro ⟨h1, -⟩
        exact hxid h1
      rw [hform]
      exact List.mem_map_of_mem _ hx

/-- C8 witness: the owner cancels their pending reservation successfully,
and cancelling the completed one is the `ok false` no-op with the database
unchanged. -/
theorem claim_C8_witness :
    (cancel_reservation dbC8 1 10).1 = .ok true
    ∧ cancel_reservation dbC8completed 1 10 = (.ok false, dbC8completed) := by
  constructor
  · exact (claim_C8_cancel_reservation dbC8 1 10 resC8 profC8 (by decide) (by decide)
      (List.mem_singleton.mpr rfl) rfl (List.mem_singleton.mpr rfl) rfl).1.mpr
      ⟨Or.inl rfl, Or.inl rfl⟩
  · exact (claim_C8_cancel_reservation dbC8completed 1 10 resC8completed profC8
      (by decide) (by decide)
      (List.mem_singleton.mpr rfl) rfl (List.mem_singleton.mpr rfl) rfl).2.2.1
      (Or.inl rfl) (by decide)

/-- C9 (amended): `create_reservation` stores the caller-supplied
`p_duration_hours` verbatim — it never derives or validates it against
`p_end_time − p_start_time` — so the stored duration equals
`(end − start)` in hours exactly when the caller derives it that way,
as the booking form's `onSubmit` does before invoking the RPC. -/
theorem claim_C9_amended_duration_is_callers (db : DB) (dateStamp : String)
    (rands : List Nat) (newId uid vid sid date s e : Nat) (dur disc : ℚ)
    (notes : Option String) (resId : Nat)
    (h : (create_reservation db dateStamp rands newId uid vid sid date s e
            dur disc notes).1 = .ok resId) :
    ∃ r, (create_reservation db dateStamp rands newId uid vid sid date s e
            dur disc notes).2.reservations = r :: db.reservations ∧
      r.durationHours = dur ∧
      (dur = onSubmit_duration_hours s e →
        r.durationHours = ((e : ℚ) - (s : ℚ)) / 60) := by
  rcases create_reservation_shape db dateStamp rands newId uid vid sid date s e
      dur disc notes with ⟨err, herr⟩ | ⟨base, code, _, _, _, hsucc⟩
  · rw [herr] at h
    exact absurd h (by simp)
  · rw [hsucc]
    refine ⟨create_reservation_row newId uid vid sid date s e dur disc notes base code,
      rfl, rfl, ?_⟩
    intro hdur
    simpa [create_reservation_row, onSubmit_duration_hours] using hdur

/-- C9 counterexample: `create_reservation` accepts a booking of the
interval 10:00–12:00 (2 hours) with `p_duration_hours = 5` and stores
duration 5 — not the 2 hours the claim derives from the interval. -/
theorem claim_C9_counterexample :
    ((create_reservation dbC3 "20260101" [0] 1 5 1 2 3 600 720 5 0 none).1 = .ok 1)
    ∧ ((create_reservation dbC3 "20260101" [0] 1 5 1 2 3 600 720 5 0
        none).2.reservations.map (fun r => r.durationHours) = [5])
    ∧ (5 : ℚ) ≠ onSubmit_duration_hours 600 720 := by
  refine ⟨?_, ?_, ?_⟩
  · norm_num [create_reservation, calculate_venue_price, check_venue_availability,
      generate_reservation_code, lpad4, dbC3, dow, pgRound2, Rat.floor]
  · norm_num [create_reservation, create_reservation_row, calculate_venue_price,
      check_venue_availability, generate_reservation_code, lpad4, dbC3, dow,
      pgRound2, Rat.floor]
  · norm_num [onSubmit_duration_hours]

/-- C9 witness: called with the booking form's derived duration for
10:00–12:00, the stored duration is 2 hours. -/
theorem claim_C9_witness :
    ∃ r, (create_reservation dbC3 "20260101" [0] 1 5 1 2 3 600 720
            (onSubmit_duration_hours 600 720) 0 none).2.reservations
          = r :: dbC3.reservations ∧
      r.durationHours = 2 := by
  obtain ⟨r, hrow, hdur, hder⟩ :=
    claim_C9_amended_duration_is_callers dbC3 "20260101" [0] 1 5 1 2 3 600 720
      (onSubmit_duration_hours 600 720) 0 none 1
      (by norm_num [create_reservation, calculate_venue_price,
        check_venue_availability, generate_reservation_code, lpad4, dbC3, dow,
        pgRound2, Rat.floor, onSubmit_duration_hours])
  refine ⟨r, hrow, ?_⟩
  rw [hder rfl]
  norm_num

/-- Helper: every end time the loop offers lies at least one hour after
the chosen start. -/
theorem getEndTimeOptionsAux_min_duration (st : Nat)
    (rs : List ReservationWindow) :
    ∀ (slots checked : List ClientTimeSlot) (t : Nat),
      t ∈ getEndTimeOptionsAux st rs checked slots →
      ((t : ℚ) - (st : ℚ)) / 60 ≥ 1 := by
  intro slots
  induction slots with
  | nil =>
    intro checked t h
    simp [getEndTimeOptionsAux] at h
  | cons slot rest ih =>
    intro checked t h
    simp only [getEndTimeOptionsAux] at h
    by_cases h1 : ((slot.endTime : ℚ) - (st : ℚ)) / 60 < 1
    · rw [if_pos h1] at h
      exact ih _ t h
    · rw [if_neg h1] at h
      by_cases h2 : ((checked ++ [slot]).any (fun c => rs.any (fun rsv =>
          decide (c.startTime < rsv.endTime) &&
          decide (c.endTime > rsv.startTime)))) = true
      · rw [if_pos h2] at h
        simp at h
      · rw [if_neg h2] at h
        rcases List.mem_cons.mp h with rfl | h3
        · exact not_lt.mp h1
        · exact ih _ t h3

/-- C10: the booking form enforces a one-hour minimum duration — a form
input passing the zod `bookingSchema` with both times present has
`(end − start)` of at least one hour, and every end time offered by
`getEndTimeOptions` lies at least one hour after the chosen start. -/
theorem claim_C10_minimum_one_hour :
    (∀ (d : BookingFormInput) (s e : Nat),
      d.startTime = some s → d.endTime = some e →
      bookingSchema_check d = true →
      ((e : ℚ) - (s : ℚ)) / 60 ≥ 1)
    ∧ (∀ (slots : List ClientTimeSlot) (rs : List ReservationWindow) (st t : Nat),
      t ∈ getEndTimeOptions slots rs (some st) →
      ((t : ℚ) - (st : ℚ)) / 60 ≥ 1) := by
  constructor
  · intro d s e hs he hchk
    unfold bookingSchema_check at hchk
    rw [hs, he] at hchk
    simp only [Bool.and_eq_true, decide_eq_true_eq] at hchk
    exact hchk.2.2
  · intro slots rs st t h
    have h' : t ∈ (match slots.findIdx? (fun slot => decide (slot.startTime = st)) with
      | none => ([] : List Nat)
      | some startIndex => getEndTimeOptionsAux st rs [] (slots.drop startIndex)) := h
    rcases hidx : slots.findIdx? (fun slot => decide (slot.startTime = st)) with _ | i
    · rw [hidx] at h'
      simp at h'
    · rw [hidx] at h'
      exact getEndTimeOptionsAux_min_duration st rs (slots.drop i) [] t h'

/-- C10 witness: a valid 10:00–11:00 submission and the offered end time
11:00 both satisfy the one-hour minimum. -/
theorem claim_C10_witness :
    bookingSchema_check formC10 = true
    ∧ 660 ∈ getEndTimeOptions [cSlotC10a, cSlotC10b] [] (some 600)
    ∧ ((660 : ℚ) - (600 : ℚ)) / 60 ≥ 1 := by
  have h1 : bookingSchema_check formC10 = true := by
    norm_num [bookingSchema_check, formC10]
    exact ⟨by decide, by decide⟩
  have h2 : 660 ∈ getEndTimeOptions [cSlotC10a, cSlotC10b] [] (some 600) := by
    norm_num [getEndTimeOptions, getEndTimeOptionsAux, cSlotC10a, cSlotC10b,
      List.findIdx?]
  exact ⟨h1, h2,
    claim_C10_minimum_one_hour.2 [cSlotC10a, cSlotC10b] [] 600 660 h2⟩
